import Mathlib

/-!
# Verification of the recipes-rss middle-tier service

A shallow embedding of the two Go source files of the repository
(`middletier.go`, the gokieker-instrumented variant, and the
opentracing/appdash variant) together with proofs about the embedded
handlers.

The repository's own code is the HTTP handler layer.  Its external
collaborators — the Cassandra column store reached through gocql, the
gofeed parser reached over the network, and the tracing libraries — are
modelled as an explicit environment (`Env`): the store is a list of rows
of the `"Subscriptions"` table, the parser is an oracle
`String → Option Feed`, and the failure points of the collaborators
(connection refusal, iterator-close error, statement-execution error,
trace-extraction failure) are explicit fields.

Two Go facts are load-bearing for the embedding and are modelled
explicitly:

* `log.Fatal(err)` is `Print` followed by `os.Exit(1)`.  `os.Exit`
  terminates the process immediately: deferred functions do not run and
  no HTTP response is written.  Every such path is modelled by the
  outcome `HOutcome.exited`.
* In `middletier.go`'s `GetFeed`, the parse error is discarded
  (`feed, _ := fp.ParseURL(feedURL)`); on failure `gofeed.ParseURL`
  returns a nil `*Feed`, so the following `feed.FeedLink = feedURL` is a
  nil-pointer dereference.  The handler goroutine panics before the
  response body is written; this is modelled by `HOutcome.panicked`.
-/

set_option autoImplicit false

namespace RssMiddletier

/-- The parsed representation of one remote feed, the fragment of
`gofeed.Feed` that the handlers touch.  `feedLink` is the field the
handlers overwrite with the requested URL (`feed.FeedLink = feedURL`);
the parser fills it with whatever link the document declared for
itself. -/
structure Feed where
  title : String
  description : String
  feedLink : String
deriving DecidableEq

/-- One row of the `"Subscriptions"` table: partition key `key` (the
user), clustering column `column1` (the feed URL), and the stored
`value` (the marker `"1"`). -/
structure Row where
  key : String
  column1 : String
  value : String
deriving DecidableEq

/-- Modelled from the spec: the Cassandra statement
`INSERT INTO "Subscriptions" (key, column1, value) VALUES (?, ?, ?)` has
upsert semantics — it overwrites the cell for `(key, column1)` when one
exists and creates it otherwise (spec §3, §4.1). -/
def insertRow : List Row → String → String → String → List Row
  | [], user, url, v => [⟨user, url, v⟩]
  | r :: rs, user, url, v =>
    if r.key = user ∧ r.column1 = url then ⟨user, url, v⟩ :: rs
    else r :: insertRow rs user url v

/-- Modelled from the spec: the Cassandra statement
`DELETE FROM "Subscriptions" WHERE key=? AND column1=?` writes a
tombstone for the cell — every row for the pair disappears, and the
delete is not existence-checked, so it succeeds on an absent pair
(spec §4.1). -/
def deleteRow : List Row → String → String → List Row
  | [], _, _ => []
  | r :: rs, user, url =>
    if r.key = user ∧ r.column1 = url then deleteRow rs user url
    else r :: deleteRow rs user url

/-- Modelled from the spec: the read
`SELECT column1 FROM "Subscriptions" WHERE key = ?` returns the
`column1` value of every row of the user's partition, in the store's
enumeration order (spec §4.1). -/
def selectUrls : List Row → String → List String
  | [], _ => []
  | r :: rs, user =>
    if r.key = user then r.column1 :: selectUrls rs user
    else selectUrls rs user

/-- The number of rows the store holds for a `(user, url)` pair. -/
def countPair : List Row → String → String → Nat
  | [], _, _ => 0
  | r :: rs, user, url =>
    (if r.key = user ∧ r.column1 = url then 1 else 0) + countPair rs user url

/-- The external collaborators of one request, as the handlers observe
them: `extractOk` is whether `opentracing.Extract` succeeds on the
request headers (appdash variant only), `connectOk` whether
`gocql.CreateSession` succeeds, `iterCloseErr` the error returned by
`iter.Close()` after the subscription read, `execErr` the error returned
by `Query(...).Exec()` for the insert/delete statements, `store` the
current contents of the `"Subscriptions"` table, and `parse` the
combined network-fetch-and-parse oracle of `gofeed.Parser.ParseURL`
(`none` models a nil `*Feed` with a non-nil error). -/
structure Env where
  extractOk : Bool
  connectOk : Bool
  iterCloseErr : Option String
  execErr : Option String
  store : List Row
  parse : String → Option Feed

/-- What the process does with one request: write an HTTP response
(`respond status body`), terminate via `log.Fatal`/`os.Exit` with no
response (`exited`), or panic in the handler goroutine before the body
is written (`panicked`). -/
inductive HOutcome where
  | respond (status : Nat) (body : String)
  | exited
  | panicked
deriving DecidableEq

/-- The observable result of one handler call: its outcome, the store
contents afterwards, and how many read queries and write statements were
issued to the store. -/
structure HResult where
  outcome : HOutcome
  store : List Row
  storeReads : Nat
  storeWrites : Nat
deriving DecidableEq

/-- The observable result of one `GetUrls` call: `result` is
`some (Except.ok urls)` on success, `some (Except.error msg)` when the
call returns an error, and `none` when `log.Fatal` terminated the
process inside the call; `sessionOpened`/`sessionClosed` record whether
a store session was opened and whether `session.Close()` ran before the
call ended. -/
structure UrlsResult where
  result : Option (Except String (List String))
  sessionOpened : Bool
  sessionClosed : Bool

/-- `GetUrls` (`middletier.go` lines 45–67; identical in the appdash
variant, part_000 lines 61–83 minus tracing).  When
`GetCassandraSession` fails it returns the error
`"Cannot connect to cassandra"` before any session exists.  Otherwise it
issues the subscription read; when `iter.Close()` returns an error the
code calls `log.Fatal(err)`, so the process exits — the deferred
`session.Close()` does not run (`os.Exit` skips deferred functions) and
the textually following `return` of
`"Error fetching data from cassandra"` is dead code.  On success the
deferred `session.Close()` runs at return. -/
def GetUrls (env : Env) (user : String) : UrlsResult :=
  if env.connectOk = false then
    { result := some (Except.error "Cannot connect to cassandra"),
      sessionOpened := false, sessionClosed := false }
  else
    match env.iterCloseErr with
    | some _ =>
      { result := none, sessionOpened := true, sessionClosed := false }
    | none =>
      { result := some (Except.ok (selectUrls env.store user)),
        sessionOpened := true, sessionClosed := true }

/-- The per-URL loop of `GetFeed` (`middletier.go` lines 36–41).  The
parse error is discarded; on a failed fetch/parse the feed pointer is
nil and the assignment `feed.FeedLink = feedURL` panics, so the loop
produces no feed list at all (`none`).  On an all-success run each feed
is appended with its `FeedLink` overwritten by the requested URL. -/
def getFeedLoop (parse : String → Option Feed) : List String → Option (List Feed)
  | [] => some []
  | url :: rest =>
    match parse url with
    | none => none
    | some f =>
      match getFeedLoop parse rest with
      | none => none
      | some fs => some ({ f with feedLink := url } :: fs)

/-- The per-URL loop of `FetchFeed` (part_000 lines 50–57).  A failed
`FetchFeedContents` call is skipped with `continue`; a successful one is
appended with `FeedLink` overwritten by the requested URL. -/
def fetchLoop (parse : String → Option Feed) : List String → List Feed
  | [] => []
  | url :: rest =>
    match parse url with
    | none => fetchLoop parse rest
    | some f => { f with feedLink := url } :: fetchLoop parse rest

/-- The Go slice held by `Subscription.Feeds`: it starts nil and is only
ever grown by `append`, so it is nil exactly when the loop appended
nothing. -/
def feedsSlice (fs : List Feed) : Option (List Feed) :=
  match fs with
  | [] => none
  | _ => some fs

/-- JSON string literal (the handlers only ever carry plain ASCII
values, so no escaping is modelled). -/
def jsonString (s : String) : String := "\"" ++ s ++ "\""

/-- JSON object for one `Feed`, the fragment of `gofeed.Feed`'s
marshalling that the model carries. -/
def encodeFeed (f : Feed) : String :=
  "\x7b\"title\":" ++ jsonString f.title
    ++ ",\"description\":" ++ jsonString f.description
    ++ ",\"feedLink\":" ++ jsonString f.feedLink ++ "\x7d"

/-- `encoding/json` marshalling of the `Feeds` slice: a nil slice
serializes as `null`, a non-nil one as an array. -/
def encodeFeeds : Option (List Feed) → String
  | none => "null"
  | some fs => "[" ++ String.intercalate "," (fs.map encodeFeed) ++ "]"

/-- `json.NewEncoder(w).Encode(subscription)`: the `Subscription`
object with its single `Feeds` field, followed by the encoder's trailing
newline. -/
def encodeSubscription (fs : Option (List Feed)) : String :=
  "\x7b\"Feeds\":" ++ encodeFeeds fs ++ "\x7d\n"

/-- `GetFeed` (`middletier.go` lines 24–43), the gokieker variant's
fetch handler.  A `GetUrls` error is answered by `ReturnErrorPage`
(status 500, body the error text); a `log.Fatal` inside `GetUrls` has
already killed the process.  Otherwise the per-URL loop runs; if it
panics nothing is written, and if it completes the encoder's write
carries an implicit status 200. -/
def GetFeed (env : Env) (user : String) : HResult :=
  match (GetUrls env user).result with
  | none =>
    { outcome := .exited, store := env.store, storeReads := 1, storeWrites := 0 }
  | some (Except.error e) =>
    { outcome := .respond 500 e, store := env.store, storeReads := 0, storeWrites := 0 }
  | some (Except.ok urls) =>
    match getFeedLoop env.parse urls with
    | none =>
      { outcome := .panicked, store := env.store, storeReads := 1, storeWrites := 0 }
    | some fs =>
      { outcome := .respond 200 (encodeSubscription (feedsSlice fs)),
        store := env.store, storeReads := 1, storeWrites := 0 }

/-- `FetchFeed` (part_000 lines 31–59), the appdash variant's fetch
handler.  When span extraction from the request headers fails the
handler returns at once — nothing is written, so the client sees an
implicit 200 with an empty body and the store is never touched.
Otherwise it behaves as `GetFeed` except that the per-URL loop skips
failed fetches. -/
def FetchFeed (env : Env) (user : String) : HResult :=
  if env.extractOk = false then
    { outcome := .respond 200 "", store := env.store, storeReads := 0, storeWrites := 0 }
  else
    match (GetUrls env user).result with
    | none =>
      { outcome := .exited, store := env.store, storeReads := 1, storeWrites := 0 }
    | some (Except.error e) =>
      { outcome := .respond 500 e, store := env.store, storeReads := 0, storeWrites := 0 }
    | some (Except.ok urls) =>
      { outcome := .respond 200 (encodeSubscription (feedsSlice (fetchLoop env.parse urls))),
        store := env.store, storeReads := 1, storeWrites := 0 }

/-- `AddFeed` (`middletier.go` lines 69–92), the gokieker variant's
subscribe handler.  A `GetCassandraSession` failure hits
`log.Fatal(err)` — the process exits before the textually following
`ReturnErrorPage` can write the 500, and before any statement reaches
the store.  A failing `Exec` of the insert likewise hits `log.Fatal`
first.  On success the insert is applied and `WriteHeader(200)` answers
with an empty body. -/
def AddFeed (env : Env) (user url : String) : HResult :=
  if env.connectOk = false then
    { outcome := .exited, store := env.store, storeReads := 0, storeWrites := 0 }
  else
    match env.execErr with
    | some _ =>
      { outcome := .exited, store := env.store, storeReads := 0, storeWrites := 1 }
    | none =>
      { outcome := .respond 200 "", store := insertRow env.store user url "1",
        storeReads := 0, storeWrites := 1 }

/-- `Subscribe` (part_000 lines 98–128), the appdash variant's
subscribe handler: the span-extraction gate followed by the same body as
`AddFeed`, `log.Fatal` slips included. -/
def Subscribe (env : Env) (user url : String) : HResult :=
  if env.extractOk = false then
    { outcome := .respond 200 "", store := env.store, storeReads := 0, storeWrites := 0 }
  else if env.connectOk = false then
    { outcome := .exited, store := env.store, storeReads := 0, storeWrites := 0 }
  else
    match env.execErr with
    | some _ =>
      { outcome := .exited, store := env.store, storeReads := 0, storeWrites := 1 }
    | none =>
      { outcome := .respond 200 "", store := insertRow env.store user url "1",
        storeReads := 0, storeWrites := 1 }

/-- `DeleteFeed` (`middletier.go` lines 94–117), the gokieker variant's
unsubscribe handler: as `AddFeed` with the tombstone delete in place of
the insert. -/
def DeleteFeed (env : Env) (user url : String) : HResult :=
  if env.connectOk = false then
    { outcome := .exited, store := env.store, storeReads := 0, storeWrites := 0 }
  else
    match env.execErr with
    | some _ =>
      { outcome := .exited, store := env.store, storeReads := 0, storeWrites := 1 }
    | none =>
      { outcome := .respond 200 "", store := deleteRow env.store user url,
        storeReads := 0, storeWrites := 1 }

/-- `Unsubscribe` (part_000 lines 130–160), the appdash variant's
unsubscribe handler: the span-extraction gate followed by the same body
as `DeleteFeed`. -/
def Unsubscribe (env : Env) (user url : String) : HResult :=
  if env.extractOk = false then
    { outcome := .respond 200 "", store := env.store, storeReads := 0, storeWrites := 0 }
  else if env.connectOk = false then
    { outcome := .exited, store := env.store, storeReads := 0, storeWrites := 0 }
  else
    match env.execErr with
    | some _ =>
      { outcome := .exited, store := env.store, storeReads := 0, storeWrites := 1 }
    | none =>
      { outcome := .respond 200 "", store := deleteRow env.store user url,
        storeReads := 0, storeWrites := 1 }

/-- The spec-side stamping step for one URL: a successful parse yields
the parsed feed with its source-URL field overwritten by the requested
URL, a failed one yields nothing. -/
def stampFeed (parse : String → Option Feed) (u : String) : Option Feed :=
  match parse u with
  | none => none
  | some f => some { f with feedLink := u }

/-! ## Concrete fixtures -/

/-- A parsed feed whose self-declared link differs from the URL it is
fetched from. -/
def feedA : Feed :=
  { title := "Feed A", description := "feed a", feedLink := "http://a.example/self" }

def urlA : String := "http://a.example/rss"

def urlB : String := "http://b.example/rss"

/-- A fetch oracle under which `urlA` parses and every other URL
fails. -/
def parseAB : String → Option Feed := fun u => if u = urlA then some feedA else none

/-- Alice subscribed to `urlA` and `urlB`. -/
def storeAlice : List Row := [⟨"alice", urlA, "1"⟩, ⟨"alice", urlB, "1"⟩]

/-- The healthy environment: span extraction, store connection,
iteration and writes all succeed. -/
def envAB : Env :=
  { extractOk := true, connectOk := true, iterCloseErr := none, execErr := none,
    store := storeAlice, parse := parseAB }

/-- `iter.Close()` reports an error after the subscription read. -/
def envQueryFail : Env := { envAB with iterCloseErr := some "iterator error" }

/-- `Exec` of the insert/delete statement reports an error. -/
def envWriteFail : Env := { envAB with execErr := some "write error" }

/-- `gocql.CreateSession` fails: the cluster is unreachable. -/
def envNoConn : Env := { envAB with connectOk := false }

/-- The request headers carry no extractable span context. -/
def envNoTrace : Env := { envAB with extractOk := false }

/-- Every feed fetch fails. -/
def envAllFail : Env := { envAB with parse := fun _ => none }

/-- The store holds no subscription at all. -/
def envEmptyStore : Env := { envAB with store := [] }

/-! ## Store lemmas -/

theorem insertRow_insertRow (s : List Row) (user url v : String) :
    insertRow (insertRow s user url v) user url v = insertRow s user url v := by
  induction s with
  | nil => simp [insertRow]
  | cons r rs ih =>
    by_cases h : r.key = user ∧ r.column1 = url
    · simp [insertRow, h]
    · simp [insertRow, h, ih]

theorem countPair_insertRow (s : List Row) (user url v : String) :
    countPair (insertRow s user url v) user url = max 1 (countPair s user url) := by
  induction s with
  | nil => simp [insertRow, countPair]
  | cons r rs ih =>
    by_cases h : r.key = user ∧ r.column1 = url
    · simp [insertRow, countPair, h]
    · simp [insertRow, countPair, h, ih]

theorem deleteRow_of_absent (s : List Row) (user url : String)
    (h : countPair s user url = 0) : deleteRow s user url = s := by
  induction s with
  | nil => simp [deleteRow]
  | cons r rs ih =>
    by_cases hr : r.key = user ∧ r.column1 = url
    · simp [countPair, hr] at h
    · simp only [countPair, if_neg hr, Nat.zero_add] at h
      simp [deleteRow, hr, ih h]

/-! ## Fetch-loop lemmas -/

theorem fetchLoop_eq_filterMap (parse : String → Option Feed) (urls : List String) :
    fetchLoop parse urls = urls.filterMap (stampFeed parse) := by
  induction urls with
  | nil => simp [fetchLoop]
  | cons u rest ih =>
    cases hu : parse u with
    | none => simp [fetchLoop, List.filterMap_cons, stampFeed, hu, ih]
    | some f => simp [fetchLoop, List.filterMap_cons, stampFeed, hu, ih]

theorem getFeedLoop_of_all_some (parse : String → Option Feed) (urls : List String)
    (h : ∀ u ∈ urls, (parse u).isSome = true) :
    getFeedLoop parse urls = some (urls.filterMap (stampFeed parse)) := by
  induction urls with
  | nil => simp [getFeedLoop]
  | cons u rest ih =>
    have hu : (parse u).isSome = true := h u (by simp)
    cases hpu : parse u with
    | none => rw [hpu] at hu; simp at hu
    | some f =>
      have hrest := ih (fun x hx => h x (by simp [hx]))
      simp [getFeedLoop, hpu, hrest, List.filterMap_cons, stampFeed]

theorem getFeedLoop_eq_of_some (parse : String → Option Feed) (urls : List String)
    (fs : List Feed) (h : getFeedLoop parse urls = some fs) :
    fs = urls.filterMap (stampFeed parse) := by
  induction urls generalizing fs with
  | nil =>
    simp only [getFeedLoop, Option.some.injEq] at h
    simp [← h]
  | cons u rest ih =>
    cases hu : parse u with
    | none => simp [getFeedLoop, hu] at h
    | some f =>
      simp only [getFeedLoop, hu] at h
      cases hrest : getFeedLoop parse rest with
      | none => rw [hrest] at h; simp at h
      | some fs' =>
        rw [hrest] at h
        simp only [Option.some.injEq] at h
        simp [← h, ih fs' hrest, List.filterMap_cons, stampFeed, hu]

theorem fetchLoop_of_all_none (parse : String → Option Feed) (urls : List String)
    (h : ∀ u ∈ urls, parse u = none) : fetchLoop parse urls = [] := by
  induction urls with
  | nil => rfl
  | cons u rest ih =>
    simp [fetchLoop, h u (by simp), ih (fun x hx => h x (by simp [hx]))]

theorem mem_fetchLoop (parse : String → Option Feed) (urls : List String) (f : Feed)
    (h : f ∈ fetchLoop parse urls) : ∃ u ∈ urls, stampFeed parse u = some f := by
  rw [fetchLoop_eq_filterMap] at h
  exact List.mem_filterMap.mp h

/-- The serialization of a `Subscription` whose `Feeds` slice is nil. -/
theorem encodeSubscription_none :
    encodeSubscription none = "\x7b\"Feeds\":null\x7d\n" := rfl

/-- Claim C1: the claim says a per-URL fetch/parse failure only skips
that URL and the handler still responds 200 with the other feeds.  The
appdash handler (`FetchFeed`) does exactly that, but the gokieker
handler (`GetFeed`) discards the parse error and assigns through the nil
feed pointer, panicking and aborting the whole request: with Alice
subscribed to `urlA` (fetchable) and `urlB` (broken), `GetFeed` panics
while `FetchFeed` responds 200 with `urlA`'s feed alone. -/
theorem getFeed_single_fetch_failure_panics :
    (GetFeed envAB "alice").outcome = HOutcome.panicked
    ∧ (FetchFeed envAB "alice").outcome
        = HOutcome.respond 200
            (encodeSubscription (some [{ feedA with feedLink := urlA }])) :=
  ⟨rfl, rfl⟩

/-- Claim C2, counterexample: at the same subscriptions `[urlA, urlB]`
with `urlB` failing to fetch, the gokieker fetch handler produces no
payload at all — it panics — rather than the claimed 200 response whose
payload lists exactly the successfully fetched feeds. -/
theorem getFeed_payload_claim_refuted :
    (GetFeed envAB "alice").outcome = HOutcome.panicked
    ∧ HOutcome.panicked
        ≠ HOutcome.respond 200
            (encodeSubscription (feedsSlice
              ((selectUrls envAB.store "alice").filterMap (stampFeed envAB.parse)))) :=
  ⟨rfl, by decide⟩

/-- Claim C2, amended: when the subscription listing succeeds with
sequence `S`, the appdash fetch handler's payload holds exactly one
feed per element of `S` whose fetch succeeds, in `S`'s order, omitting
exactly the failing elements (`S.filterMap (stampFeed parse)`); the
gokieker fetch handler produces that same payload when every element of
`S` fetches successfully. -/
theorem fetch_payload_exactly_successful_urls (env : Env) (user : String)
    (hx : env.extractOk = true) (hc : env.connectOk = true)
    (hi : env.iterCloseErr = none) :
    (FetchFeed env user).outcome
      = HOutcome.respond 200
          (encodeSubscription (feedsSlice
            ((selectUrls env.store user).filterMap (stampFeed env.parse))))
    ∧ ((∀ u ∈ selectUrls env.store user, (env.parse u).isSome = true) →
        (GetFeed env user).outcome
          = HOutcome.respond 200
              (encodeSubscription (feedsSlice
                ((selectUrls env.store user).filterMap (stampFeed env.parse))))) := by
  constructor
  · simp [FetchFeed, GetUrls, hx, hc, hi, fetchLoop_eq_filterMap]
  · intro hall
    simp [GetFeed, GetUrls, hc, hi, getFeedLoop_of_all_some _ _ hall]

theorem fetch_payload_exactly_successful_urls_witness :
    (envAB.extractOk = true ∧ envAB.connectOk = true ∧ envAB.iterCloseErr = none)
    ∧ ((FetchFeed envAB "alice").outcome
        = HOutcome.respond 200
            (encodeSubscription (feedsSlice
              ((selectUrls envAB.store "alice").filterMap (stampFeed envAB.parse))))
      ∧ ((∀ u ∈ selectUrls envAB.store "alice", (envAB.parse u).isSome = true) →
          (GetFeed envAB "alice").outcome
            = HOutcome.respond 200
                (encodeSubscription (feedsSlice
                  ((selectUrls envAB.store "alice").filterMap (stampFeed envAB.parse)))))) :=
  ⟨⟨rfl, rfl, rfl⟩, fetch_payload_exactly_successful_urls envAB "alice" rfl rfl rfl⟩

/-- Claim C3: the claim says a failed operation on an open store
connection is answered with HTTP 500 carrying the error text.  Instead,
every such path calls `log.Fatal` before any response can be written, so
the process exits with no response at all: shown for the fetch handlers
under an `iter.Close()` error and for both subscribe and both
unsubscribe handlers under an `Exec` error. -/
theorem open_store_failure_exits_process :
    (GetFeed envQueryFail "alice").outcome = HOutcome.exited
    ∧ (FetchFeed envQueryFail "alice").outcome = HOutcome.exited
    ∧ (AddFeed envWriteFail "alice" urlB).outcome = HOutcome.exited
    ∧ (Subscribe envWriteFail "alice" urlB).outcome = HOutcome.exited
    ∧ (DeleteFeed envWriteFail "alice" urlA).outcome = HOutcome.exited
    ∧ (Unsubscribe envWriteFail "alice" urlA).outcome = HOutcome.exited :=
  ⟨rfl, rfl, rfl, rfl, rfl, rfl⟩

/-- Claim C4: when the store connection cannot be opened, the fetch
handlers do respond 500 with the error text `"Cannot connect to
cassandra"` and no write happens anywhere — but the subscribe and
unsubscribe handlers call `log.Fatal` on the connection error, so the
process exits before the textually following `ReturnErrorPage` can
produce the claimed 500 response. -/
theorem store_unreachable_responses :
    (GetFeed envNoConn "alice").outcome
        = HOutcome.respond 500 "Cannot connect to cassandra"
    ∧ (FetchFeed envNoConn "alice").outcome
        = HOutcome.respond 500 "Cannot connect to cassandra"
    ∧ (GetFeed envNoConn "alice").storeWrites = 0
    ∧ (AddFeed envNoConn "alice" urlB).outcome = HOutcome.exited
    ∧ (AddFeed envNoConn "alice" urlB).store = envNoConn.store
    ∧ (AddFeed envNoConn "alice" urlB).storeWrites = 0
    ∧ (Subscribe envNoConn "alice" urlB).outcome = HOutcome.exited
    ∧ (Subscribe envNoConn "alice" urlB).store = envNoConn.store
    ∧ (Subscribe envNoConn "alice" urlB).storeWrites = 0
    ∧ (DeleteFeed envNoConn "alice" urlA).outcome = HOutcome.exited
    ∧ (DeleteFeed envNoConn "alice" urlA).store = envNoConn.store
    ∧ (DeleteFeed envNoConn "alice" urlA).storeWrites = 0
    ∧ (Unsubscribe envNoConn "alice" urlA).outcome = HOutcome.exited
    ∧ (Unsubscribe envNoConn "alice" urlA).store = envNoConn.store
    ∧ (Unsubscribe envNoConn "alice" urlA).storeWrites = 0 :=
  ⟨rfl, rfl, rfl, rfl, rfl, rfl, rfl, rfl, rfl, rfl, rfl, rfl, rfl, rfl, rfl⟩

/-- Claim C5: subscribing the same `(user, url)` pair twice leaves the
store in the same state as subscribing once, and — starting from a
store holding at most one row for the pair, as the upsert invariant
guarantees — exactly one logical subscription row exists for the pair
afterwards.  Shown for both the gokieker (`AddFeed`) and appdash
(`Subscribe`) handlers. -/
theorem subscribe_twice_idempotent (env : Env) (user url : String)
    (hx : env.extractOk = true) (hc : env.connectOk = true) (he : env.execErr = none)
    (h1 : countPair env.store user url ≤ 1) :
    (AddFeed { env with store := (AddFeed env user url).store } user url).store
        = (AddFeed env user url).store
    ∧ countPair (AddFeed env user url).store user url = 1
    ∧ (Subscribe { env with store := (Subscribe env user url).store } user url).store
        = (Subscribe env user url).store
    ∧ countPair (Subscribe env user url).store user url = 1 := by
  refine ⟨?_, ?_, ?_, ?_⟩ <;>
    simp [AddFeed, Subscribe, hx, hc, he, insertRow_insertRow, countPair_insertRow] <;>
    omega

theorem subscribe_twice_idempotent_witness :
    (envAB.extractOk = true ∧ envAB.connectOk = true ∧ envAB.execErr = none
      ∧ countPair envAB.store "bob" urlA ≤ 1)
    ∧ ((AddFeed { envAB with store := (AddFeed envAB "bob" urlA).store } "bob" urlA).store
          = (AddFeed envAB "bob" urlA).store
      ∧ countPair (AddFeed envAB "bob" urlA).store "bob" urlA = 1
      ∧ (Subscribe { envAB with store := (Subscribe envAB "bob" urlA).store } "bob" urlA).store
          = (Subscribe envAB "bob" urlA).store
      ∧ countPair (Subscribe envAB "bob" urlA).store "bob" urlA = 1) :=
  ⟨⟨rfl, rfl, rfl, by decide⟩,
    subscribe_twice_idempotent envAB "bob" urlA rfl rfl rfl (by decide)⟩

/-- Claim C6: unsubscribing a `(user, url)` pair the store holds no row
for succeeds — both unsubscribe handlers respond 200 with an empty body
— and the tombstone delete leaves the store unchanged. -/
theorem unsubscribe_absent_succeeds (env : Env) (user url : String)
    (hx : env.extractOk = true) (hc : env.connectOk = true) (he : env.execErr = none)
    (h0 : countPair env.store user url = 0) :
    (DeleteFeed env user url).outcome = HOutcome.respond 200 ""
    ∧ (DeleteFeed env user url).store = env.store
    ∧ (Unsubscribe env user url).outcome = HOutcome.respond 200 ""
    ∧ (Unsubscribe env user url).store = env.store := by
  refine ⟨?_, ?_, ?_, ?_⟩ <;>
    simp [DeleteFeed, Unsubscribe, hx, hc, he, deleteRow_of_absent _ _ _ h0]

theorem unsubscribe_absent_succeeds_witness :
    (envAB.extractOk = true ∧ envAB.connectOk = true ∧ envAB.execErr = none
      ∧ countPair envAB.store "alice" "http://c.example/rss" = 0)
    ∧ ((DeleteFeed envAB "alice" "http://c.example/rss").outcome
          = HOutcome.respond 200 ""
      ∧ (DeleteFeed envAB "alice" "http://c.example/rss").store = envAB.store
      ∧ (Unsubscribe envAB "alice" "http://c.example/rss").outcome
          = HOutcome.respond 200 ""
      ∧ (Unsubscribe envAB "alice" "http://c.example/rss").store = envAB.store) :=
  ⟨⟨rfl, rfl, rfl, by decide⟩,
    unsubscribe_absent_succeeds envAB "alice" "http://c.example/rss" rfl rfl rfl
      (by decide)⟩

/-- Claim C7: every feed placed into a fetch response payload — by the
appdash loop, or by the gokieker loop on the runs where it completes —
is the parsed feed of one of the requested URLs with its `FeedLink`
field overwritten by that URL, whatever link the parsed document
declared for itself. -/
theorem payload_feedLink_is_requested_url (parse : String → Option Feed)
    (urls : List String) (f : Feed)
    (h : f ∈ fetchLoop parse urls
      ∨ ∃ fs, getFeedLoop parse urls = some fs ∧ f ∈ fs) :
    ∃ u, u ∈ urls ∧ ∃ f0, parse u = some f0
      ∧ f = { f0 with feedLink := u } ∧ f.feedLink = u := by
  have hm : f ∈ fetchLoop parse urls := by
    cases h with
    | inl h => exact h
    | inr h =>
      obtain ⟨fs, hfs, hmem⟩ := h
      rw [fetchLoop_eq_filterMap, ← getFeedLoop_eq_of_some parse urls fs hfs]
      exact hmem
  obtain ⟨u, hu, hstamp⟩ := mem_fetchLoop parse urls f hm
  refine ⟨u, hu, ?_⟩
  unfold stampFeed at hstamp
  cases hpu : parse u with
  | none => rw [hpu] at hstamp; simp at hstamp
  | some f0 =>
    rw [hpu] at hstamp
    simp only [Option.some.injEq] at hstamp
    exact ⟨f0, rfl, hstamp.symm, by rw [← hstamp]⟩

theorem payload_feedLink_is_requested_url_witness :
    ((({ feedA with feedLink := urlA } : Feed) ∈ fetchLoop parseAB [urlA, urlB]
      ∨ ∃ fs, getFeedLoop parseAB [urlA, urlB] = some fs
          ∧ ({ feedA with feedLink := urlA } : Feed) ∈ fs)
    ∧ ∃ u, u ∈ [urlA, urlB] ∧ ∃ f0, parseAB u = some f0
        ∧ ({ feedA with feedLink := urlA } : Feed) = { f0 with feedLink := u }
        ∧ ({ feedA with feedLink := urlA } : Feed).feedLink = u) :=
  ⟨Or.inl (by decide),
    payload_feedLink_is_requested_url parseAB [urlA, urlB]
      { feedA with feedLink := urlA } (Or.inl (by decide))⟩

/-- Claim C8: the claim says `GetUrls` releases its store session on
every exit path.  On the successful path the deferred `session.Close()`
does run, but on the iteration-failure path `log.Fatal` exits the
process, deferred functions are skipped, and the opened session is
never released (nor does the call return). -/
theorem getUrls_session_release :
    (GetUrls envQueryFail "alice").sessionOpened = true
    ∧ (GetUrls envQueryFail "alice").sessionClosed = false
    ∧ (GetUrls envQueryFail "alice").result = none
    ∧ (GetUrls envAB "alice").sessionOpened = true
    ∧ (GetUrls envAB "alice").sessionClosed = true :=
  ⟨rfl, rfl, rfl, rfl, rfl⟩

/-- Claim C9: in the appdash variant, a request whose headers carry no
extractable span context makes each of the three handlers return
immediately: the client gets an implicit 200 with an empty body, and
the store sees no read, no write and no change. -/
theorem missing_span_context_returns_untouched (env : Env) (user url : String)
    (hx : env.extractOk = false) :
    FetchFeed env user
        = { outcome := HOutcome.respond 200 "", store := env.store,
            storeReads := 0, storeWrites := 0 }
    ∧ Subscribe env user url
        = { outcome := HOutcome.respond 200 "", store := env.store,
            storeReads := 0, storeWrites := 0 }
    ∧ Unsubscribe env user url
        = { outcome := HOutcome.respond 200 "", store := env.store,
            storeReads := 0, storeWrites := 0 } := by
  refine ⟨?_, ?_, ?_⟩ <;> simp [FetchFeed, Subscribe, Unsubscribe, hx]

theorem missing_span_context_returns_untouched_witness :
    envNoTrace.extractOk = false
    ∧ (FetchFeed envNoTrace "alice"
        = { outcome := HOutcome.respond 200 "", store := envNoTrace.store,
            storeReads := 0, storeWrites := 0 }
      ∧ Subscribe envNoTrace "alice" urlA
          = { outcome := HOutcome.respond 200 "", store := envNoTrace.store,
              storeReads := 0, storeWrites := 0 }
      ∧ Unsubscribe envNoTrace "alice" urlA
          = { outcome := HOutcome.respond 200 "", store := envNoTrace.store,
              storeReads := 0, storeWrites := 0 }) :=
  ⟨rfl, missing_span_context_returns_untouched envNoTrace "alice" urlA rfl⟩

/-- Claim C10, counterexample: when the subscription set is non-empty
but every feed fails to fetch, the gokieker fetch handler does not
respond 200 with `Feeds` as JSON null — it panics on the first nil feed
pointer. -/
theorem feeds_null_claim_refuted :
    (GetFeed envAllFail "alice").outcome = HOutcome.panicked
    ∧ HOutcome.panicked ≠ HOutcome.respond 200 "\x7b\"Feeds\":null\x7d\n" :=
  ⟨rfl, by decide⟩

/-- Claim C10, amended: a user with an empty subscription set gets a
200 response from either fetch handler whose body serializes the
never-appended nil `Feeds` slice as JSON null; when the set is
non-empty but every fetch fails, the appdash handler produces that same
null-`Feeds` 200 response (the gokieker handler instead panics, per the
counterexample). -/
theorem feeds_null_empty_or_allfail (env : Env) (user : String)
    (hx : env.extractOk = true) (hc : env.connectOk = true)
    (hi : env.iterCloseErr = none) :
    (selectUrls env.store user = [] →
      (GetFeed env user).outcome = HOutcome.respond 200 "\x7b\"Feeds\":null\x7d\n"
      ∧ (FetchFeed env user).outcome
          = HOutcome.respond 200 "\x7b\"Feeds\":null\x7d\n")
    ∧ ((∀ u ∈ selectUrls env.store user, env.parse u = none) →
      (FetchFeed env user).outcome
          = HOutcome.respond 200 "\x7b\"Feeds\":null\x7d\n") := by
  constructor
  · intro hS
    constructor
    · simp [GetFeed, GetUrls, hc, hi, hS, getFeedLoop, feedsSlice,
        encodeSubscription_none]
    · simp [FetchFeed, GetUrls, hx, hc, hi, hS, fetchLoop, feedsSlice,
        encodeSubscription_none]
  · intro hall
    have hnil : fetchLoop env.parse (selectUrls env.store user) = [] :=
      fetchLoop_of_all_none _ _ hall
    simp [FetchFeed, GetUrls, hx, hc, hi, hnil, feedsSlice, encodeSubscription_none]

theorem feeds_null_empty_or_allfail_witness :
    (envEmptyStore.extractOk = true ∧ envEmptyStore.connectOk = true
      ∧ envEmptyStore.iterCloseErr = none)
    ∧ ((selectUrls envEmptyStore.store "alice" = [] →
        (GetFeed envEmptyStore "alice").outcome
            = HOutcome.respond 200 "\x7b\"Feeds\":null\x7d\n"
        ∧ (FetchFeed envEmptyStore "alice").outcome
            = HOutcome.respond 200 "\x7b\"Feeds\":null\x7d\n")
      ∧ ((∀ u ∈ selectUrls envEmptyStore.store "alice",
            envEmptyStore.parse u = none) →
        (FetchFeed envEmptyStore "alice").outcome
            = HOutcome.respond 200 "\x7b\"Feeds\":null\x7d\n")) :=
  ⟨⟨rfl, rfl, rfl⟩, feeds_null_empty_or_allfail envEmptyStore "alice" rfl rfl rfl⟩

end RssMiddletier
